import Mathlib

/-!
Verification development for the glassdoor scraper
(src/dsjobs_pt1_glassdoorscraper.py, function get_jobs).

The scraper drives a browser through a paginated job listing.  We embed
the control flow of get_jobs shallowly: the browser is a pure world value
(a list of pages, each page carrying the job detail views it would show
and the outcome of clicking its next-page button), and the main loop of
get_jobs becomes a recursive function over that world.  Element lookups
that the source wraps in try/except NoSuchElementException are modelled
as Option values (none = the exception branch); find_elements calls are
modelled as lists, matching Selenium semantics where find_elements
returns a possibly empty list and does not raise.
-/

namespace DSJobs

/-- A scraped field value: either text obtained from the page, or the
scraper's "not found" sentinel (the literal -1 in the source). -/
inductive FieldVal
  | scraped (s : String)
  | missing
deriving DecidableEq, Repr

/-- One job's detail view as the browser would present it.  Each scalar
field is the result of the corresponding find_element call (none = the
NoSuchElementException branch).  descReads is the stream of results of
successive job-description lookups: index 0 is the first read (line 227),
index 1 is the read after the recovery re-click (line 237); reads beyond
the list default to none.  companydetails and subratings are the texts of
the elements returned by the find_elements calls at lines 277 and 317. -/
structure JobView where
  company_name : Option String
  location : Option String
  job_title : Option String
  descReads : List (Option String)
  salary_estimate : Option String
  rating : Option String
  companydetails : List String
  subratings : List String
deriving DecidableEq, Repr

/-- The record assembled for one job (the 17 variables collected at
lines 346-364 / 375-393 of the source). -/
structure JobRecord where
  job_title : FieldVal
  salary_estimate : FieldVal
  job_description : FieldVal
  rating : FieldVal
  company_name : FieldVal
  location : FieldVal
  size : FieldVal
  founded : FieldVal
  type_of_ownership : FieldVal
  industry : FieldVal
  sector : FieldVal
  revenue : FieldVal
  rating_culturevalues : FieldVal
  rating_worklifebalance : FieldVal
  rating_seniormgmt : FieldVal
  rating_compbenefits : FieldVal
  rating_careerops : FieldVal
deriving DecidableEq, Repr

/-- Outcome of clicking the next-page button (lines 433-444): the click
may raise NoSuchElementException, raise ElementClickInterceptedException,
or succeed, in which case the browser ends up at the given URL
(driver.current_url at line 447). -/
inductive NavOutcome
  | notFound
  | intercepted
  | success (url : String)
deriving DecidableEq, Repr

/-- One listing page of the world: its own URL, the detail views behind
its job links (line 145), the number of elements carrying the
viewedDate marker (line 149), and what clicking its next button does. -/
structure Page where
  url : String
  jobs : List JobView
  viewedCount : Nat
  next : NavOutcome
deriving DecidableEq, Repr

/-- Which record sink the caller selected: a CSV path (path is not None)
or the in-memory list returned as a DataFrame (path is None). -/
inductive SinkMode
  | csvPath
  | inMemory
deriving DecidableEq, Repr

/-- The per-field try/except pattern (lines 186-222, 249-273): success
keeps the text, NoSuchElementException stores the -1 sentinel. -/
def scalarField : Option String → FieldVal
  | some s => FieldVal.scraped s
  | none => FieldVal.missing

/-- Result of the i-th description lookup; reads past the provided list
are treated as failing (none). -/
def descLookup (reads : List (Option String)) (i : Nat) : Option String :=
  reads.getD i none

/-- Outcome of the description-extraction block, together with how many
element lookups were issued and how many recovery re-clicks of the job
link happened. -/
structure DescResult where
  value : FieldVal
  lookups : Nat
  reNavs : Nat
deriving DecidableEq, Repr

/-- Lines 226-246: read the description; on NoSuchElementException
re-click the job link once and read again; on a second failure store the
sentinel.  The source contains no third find_element for the
description. -/
def extractDescription (reads : List (Option String)) : DescResult :=
  match descLookup reads 0 with
  | some s => ⟨FieldVal.scraped s, 1, 0⟩
  | none =>
    match descLookup reads 1 with
    | some s => ⟨FieldVal.scraped s, 2, 1⟩
    | none => ⟨FieldVal.missing, 2, 1⟩

/-- Split a character list at its first newline, keeping everything after
it intact; none when no newline occurs. -/
def splitAtNewline : List Char → Option (List Char × List Char)
  | [] => none
  | c :: cs =>
    if c = '\n' then some ([], cs)
    else
      match splitAtNewline cs with
      | none => none
      | some (x, y) => some (c :: x, y)

/-- Line 294: x, y = c.split("\x5cn", 1).  Python splits at the first
newline; if the text holds no newline the unpacking raises ValueError,
modelled as none.  The try at line 276 catches only
NoSuchElementException, so that ValueError propagates out of get_jobs. -/
def splitOnce (c : String) : Option (String × String) :=
  match splitAtNewline c.data with
  | none => none
  | some (x, y) => some (String.mk x, String.mk y)

/-- Lines 290-296: split every company-details element text into a
label/value pair; none when any split raises ValueError. -/
def splitAllDetails : List String → Option (List (String × String))
  | [] => some []
  | c :: rest =>
    match splitOnce c with
    | none => none
    | some p => (splitAllDetails rest).map (fun ps => p :: ps)

/-- dict(zip(labels, values)).get(key, -1): in a Python dict built from
pairs, a later pair with the same key overwrites an earlier one, so the
last matching pair wins; a key with no pair yields the sentinel. -/
def dictGet (pairs : List (String × String)) (key : String) : FieldVal :=
  match pairs with
  | [] => FieldVal.missing
  | (l, v) :: rest =>
    match dictGet rest key with
    | FieldVal.missing => if l = key then FieldVal.scraped v else FieldVal.missing
    | f => f

/-- Line 330: zip(subratings_list[0::2], subratings_list[1::2]) pairs
each even-index text with the following odd-index text; a trailing
unpaired label is dropped by zip. -/
def pairAlternating : List String → List (String × String)
  | a :: b :: rest => (a, b) :: pairAlternating rest
  | _ => []

/-- The fixed company-details labels looked up at lines 300-305. -/
def detailLabels : List String :=
  ["Size", "Founded", "Type", "Industry", "Sector", "Revenue"]

/-- The fixed subrating labels looked up at lines 332-336. -/
def subratingLabels : List String :=
  ["Culture & Values", "Work/Life Balance", "Senior Management",
   "Comp & Benefits", "Career Opportunities"]

/-- Lines 184-343: extract every field of one job.  Scalar fields are
independent try/except blocks; the description block carries the one-shot
retry; company details and subratings are converted to dicts and probed
with the fixed labels.  Returns none exactly when the ValueError of the
company-details split aborts the extraction (that error is not caught by
the surrounding handlers, which only catch NoSuchElementException). -/
def extractJob (j : JobView) : Option JobRecord :=
  match splitAllDetails j.companydetails with
  | none => none
  | some pairs =>
    let sub := pairAlternating j.subratings
    some
      { job_title := scalarField j.job_title
      , salary_estimate := scalarField j.salary_estimate
      , job_description := (extractDescription j.descReads).value
      , rating := scalarField j.rating
      , company_name := scalarField j.company_name
      , location := scalarField j.location
      , size := dictGet pairs "Size"
      , founded := dictGet pairs "Founded"
      , type_of_ownership := dictGet pairs "Type"
      , industry := dictGet pairs "Industry"
      , sector := dictGet pairs "Sector"
      , revenue := dictGet pairs "Revenue"
      , rating_culturevalues := dictGet sub "Culture & Values"
      , rating_worklifebalance := dictGet sub "Work/Life Balance"
      , rating_seniormgmt := dictGet sub "Senior Management"
      , rating_compbenefits := dictGet sub "Comp & Benefits"
      , rating_careerops := dictGet sub "Career Opportunities"
      }

/-- Lines 162-422, the for loop over the job links of one page.  Carries
the records handed to the sink in order together with the job counter.
ok = the loop finished (by exhausting the links or by the break at line
420 when the counter reaches the target); error = a ValueError from the
company-details split aborted the run mid-job (the counter was already
incremented at line 165, but no record of the failing job was sunk). -/
def jobLoop (numJobs : Nat) : Nat → List JobView → Except (List JobRecord × Nat) (List JobRecord × Nat)
  | c, [] => Except.ok ([], c)
  | c, j :: rest =>
    match extractJob j with
    | none => Except.error ([], c + 1)
    | some r =>
      if c + 1 = numJobs then Except.ok ([r], c + 1)
      else
        match jobLoop numJobs (c + 1) rest with
        | Except.ok (rs, cf) => Except.ok (r :: rs, cf)
        | Except.error (rs, cf) => Except.error (r :: rs, cf)

/-- Substring containment on character lists: the needle occurs as a
prefix of some suffix of the haystack. -/
def containsSeq (sep : List Char) : List Char → Bool
  | [] => sep.isEmpty
  | c :: cs => sep.isPrefixOf (c :: cs) || containsSeq sep cs

/-- "pgc=" in url_str (line 448): Python substring containment. -/
def containsPgc (url : String) : Bool :=
  containsSeq "pgc=".data url.data

/-- How one iteration of the while loop left the page. -/
inductive PageExit
  | caughtUp
  | caughtUpPost
  | target
  | navNotFound
  | navIntercepted
  | navCrash
  | advance
  | extractError
  | fatal
deriving DecidableEq, Repr

/-- Net effect of one while-loop iteration on one page. -/
structure PageResult where
  recs : List JobRecord
  counter : Nat
  exit : PageExit
deriving DecidableEq, Repr

/-- One iteration of the while loop, lines 126-452, processing the page
the browser currently shows.  In order: the caught-up check at lines
153-155 (break before any job is opened when every job link carries the
viewedDate marker); the job loop; the repeated viewedDate comparison at
line 424; the target check at line 427; the next-page click.  In the two
nav-failure handlers (lines 440 and 443) the log message evaluates
len(jobs), but the local variable jobs is only ever assigned when path
is None (line 95), so in CSV mode both handlers raise
UnboundLocalError (a NameError): exit navCrash.  After a successful
click, line 448 tests whether the current URL holds the marker "pgc=";
if not, line 452 calls sys.exit(1): exit fatal. -/
def processPage (mode : SinkMode) (numJobs : Nat) (counter : Nat) (p : Page) : PageResult :=
  if p.viewedCount = p.jobs.length then
    ⟨[], counter, PageExit.caughtUp⟩
  else
    match jobLoop numJobs counter p.jobs with
    | Except.error (recs, c) => ⟨recs, c, PageExit.extractError⟩
    | Except.ok (recs, c) =>
      if p.viewedCount = p.jobs.length then
        ⟨recs, c, PageExit.caughtUpPost⟩
      else if c = numJobs then
        ⟨recs, c, PageExit.target⟩
      else
        match p.next with
        | NavOutcome.notFound =>
          ⟨recs, c, if mode = SinkMode.inMemory then PageExit.navNotFound else PageExit.navCrash⟩
        | NavOutcome.intercepted =>
          ⟨recs, c, if mode = SinkMode.inMemory then PageExit.navIntercepted else PageExit.navCrash⟩
        | NavOutcome.success url =>
          if containsPgc url then ⟨recs, c, PageExit.advance⟩
          else ⟨recs, c, PageExit.fatal⟩

/-- Why the while loop stopped without raising and without sys.exit. -/
inductive Reason
  | caughtUp
  | caughtUpPost
  | targetReached
  | navNotFound
  | navIntercepted
  | whileDone
deriving DecidableEq, Repr

/-- How the whole run ended: a normal fall-through to the return at lines
458-464, the sys.exit(1) at line 452, an uncaught ValueError from the
company-details split, an uncaught UnboundLocalError from the nav-failure
log message in CSV mode, or the world model running out of pages. -/
inductive Outcome
  | finished (r : Reason)
  | fatalExit
  | valueError
  | nameError
  | modelExhausted
deriving DecidableEq, Repr

/-- Final crawl state: records sunk in order, job_counter,
nextpage_counter, and how the run ended. -/
structure CrawlDone where
  records : List JobRecord
  counter : Nat
  pages : Nat
  outcome : Outcome
deriving DecidableEq, Repr

/-- The while loop at line 124, recursing over the pages the browser
would successively show.  The loop condition job_counter < num_jobs is
re-checked before each page; only the advance exit (successful click with
"pgc=" present, line 449) continues to the next page and increments
nextpage_counter. -/
def runPages (mode : SinkMode) (numJobs : Nat) : List Page → Nat → Nat → List JobRecord → CrawlDone
  | [], c, pc, acc =>
    if c < numJobs then ⟨acc, c, pc, Outcome.modelExhausted⟩
    else ⟨acc, c, pc, Outcome.finished Reason.whileDone⟩
  | p :: rest, c, pc, acc =>
    if c < numJobs then
      match processPage mode numJobs c p with
      | ⟨recs, c2, PageExit.caughtUp⟩ => ⟨acc ++ recs, c2, pc, Outcome.finished Reason.caughtUp⟩
      | ⟨recs, c2, PageExit.caughtUpPost⟩ => ⟨acc ++ recs, c2, pc, Outcome.finished Reason.caughtUpPost⟩
      | ⟨recs, c2, PageExit.target⟩ => ⟨acc ++ recs, c2, pc, Outcome.finished Reason.targetReached⟩
      | ⟨recs, c2, PageExit.navNotFound⟩ => ⟨acc ++ recs, c2, pc, Outcome.finished Reason.navNotFound⟩
      | ⟨recs, c2, PageExit.navIntercepted⟩ => ⟨acc ++ recs, c2, pc, Outcome.finished Reason.navIntercepted⟩
      | ⟨recs, c2, PageExit.navCrash⟩ => ⟨acc ++ recs, c2, pc, Outcome.nameError⟩
      | ⟨recs, c2, PageExit.extractError⟩ => ⟨acc ++ recs, c2, pc, Outcome.valueError⟩
      | ⟨recs, c2, PageExit.fatal⟩ => ⟨acc ++ recs, c2, pc, Outcome.fatalExit⟩
      | ⟨recs, c2, PageExit.advance⟩ => runPages mode numJobs rest c2 (pc + 1) (acc ++ recs)
    else ⟨acc, c, pc, Outcome.finished Reason.whileDone⟩

/-- Result of a whole get_jobs call that passed argument validation.
sessionAcquires counts webdriver.Chrome constructions (exactly one, line
102); sessionReleases counts driver.quit / driver.close calls, of which
the source contains none on any path. -/
structure RunResult where
  crawl : CrawlDone
  sessionAcquires : Nat
  sessionReleases : Nat
deriving DecidableEq, Repr

/-- get_jobs (lines 23-464): validatenumjobs rejects num_jobs outside
[1, 900] (lines 28-39) before the webdriver is created; then the driver
is acquired once and the while loop runs.  No exit path releases the
driver. -/
def getJobs (numJobs : Int) (mode : SinkMode) (world : List Page) : Except String RunResult :=
  if numJobs ≤ 0 ∨ 900 < numJobs then
    Except.error "num_jobs must be between 1 and 900"
  else
    Except.ok
      { crawl := runPages mode numJobs.toNat world 0 0 []
      , sessionAcquires := 1
      , sessionReleases := 0
      }

/-- Projection used by closed evaluations: the outcome of a validated
run. -/
def outcomeOf (e : Except String RunResult) : Option Outcome :=
  match e with
  | Except.ok r => some r.crawl.outcome
  | Except.error _ => none

/-- Projection: the final job counter of a validated run. -/
def counterOf (e : Except String RunResult) : Option Nat :=
  match e with
  | Except.ok r => some r.crawl.counter
  | Except.error _ => none

/-- Projection: the number of session releases of a validated run. -/
def releasesOf (e : Except String RunResult) : Option Nat :=
  match e with
  | Except.ok r => some r.sessionReleases
  | Except.error _ => none

/-- The job counter carried by either exit of the job loop. -/
def loopCounter (e : Except (List JobRecord × Nat) (List JobRecord × Nat)) : Nat :=
  match e with
  | Except.ok (_, c) => c
  | Except.error (_, c) => c

/-- A detail view on which every lookup fails: each try/except stores the
sentinel and extraction yields the all-missing record. -/
def jvNone : JobView :=
  ⟨none, none, none, [], none, none, [], []⟩

/-- The record produced for jvNone: every field is the sentinel. -/
def recNone : JobRecord :=
  ⟨FieldVal.missing, FieldVal.missing, FieldVal.missing, FieldVal.missing,
   FieldVal.missing, FieldVal.missing, FieldVal.missing, FieldVal.missing,
   FieldVal.missing, FieldVal.missing, FieldVal.missing, FieldVal.missing,
   FieldVal.missing, FieldVal.missing, FieldVal.missing, FieldVal.missing,
   FieldVal.missing⟩

/-- A page with one unseen job whose next-page button raises
NoSuchElementException. -/
def pgSingle : Page :=
  ⟨"u", [jvNone], 0, NavOutcome.notFound⟩

/-- A page with one unseen job whose next-page click raises
ElementClickInterceptedException. -/
def pgIntercept : Page :=
  ⟨"u", [jvNone], 0, NavOutcome.intercepted⟩

/-- A page whose next-page click leaves the browser at the very same URL
it already shows; the URL does contain the marker "pgc=". -/
def pgSame : Page :=
  ⟨"a?pgc=2", [jvNone], 0, NavOutcome.success "a?pgc=2"⟩

/-- A fully viewed empty follow-up page, terminating any crawl that
reaches it. -/
def pgStop : Page :=
  ⟨"u2", [], 0, NavOutcome.notFound⟩

/-- A page offering ten unseen jobs, none previously viewed. -/
def pgTen : Page :=
  ⟨"u", List.replicate 10 jvNone, 0, NavOutcome.notFound⟩

/-- A detail view whose scalar fields are present but whose single
company-details element text carries no newline separator. -/
def jvMalformed : JobView :=
  ⟨some "Acme", some "London", some "DS", [some "d"], some "50k",
   some "4.2", ["Size"], []⟩

/-- A detail view with well-formed company details and one subrating. -/
def jvDetailed : JobView :=
  ⟨some "Acme", none, some "DS", [none, none], some "50k", none,
   ["Size\n10"], ["Culture & Values", "4.0"]⟩

theorem loopCounter_jobLoop_le (n : Nat) :
    ∀ (jobs : List JobView) (c : Nat), c < n → loopCounter (jobLoop n c jobs) ≤ n := by
  intro jobs
  induction jobs with
  | nil =>
    intro c hc
    simp only [jobLoop, loopCounter]
    omega
  | cons j rest ih =>
    intro c hc
    simp only [jobLoop]
    split
    · simp only [loopCounter]; omega
    · split
      · simp only [loopCounter]; omega
      · rename_i h1
        have hrec := ih (c + 1) (by omega)
        split <;> rename_i rs cf heq <;> rw [heq] at hrec <;>
          simpa [loopCounter] using hrec

theorem processPage_counter_le (mode : SinkMode) (n : Nat) (c : Nat) (p : Page)
    (hc : c < n) : (processPage mode n c p).counter ≤ n := by
  have hl := loopCounter_jobLoop_le n p.jobs c hc
  unfold processPage
  split
  · simp only []; omega
  · split <;> rename_i recs c2 heq <;> rw [heq] at hl <;>
      simp only [loopCounter] at hl <;> (try split) <;> (try split) <;>
      (try split) <;> exact hl

theorem runPages_counter_le (mode : SinkMode) (n : Nat) :
    ∀ (ps : List Page) (c pc : Nat) (acc : List JobRecord),
      c ≤ n → (runPages mode n ps c pc acc).counter ≤ n := by
  intro ps
  induction ps with
  | nil =>
    intro c pc acc hc
    by_cases h : c < n <;> simp [runPages, h, hc]
  | cons p rest ih =>
    intro c pc acc hc
    by_cases h : c < n
    · have hle := processPage_counter_le mode n c p h
      rcases hp : processPage mode n c p with ⟨recs, c2, ex⟩
      rw [hp] at hle
      simp only at hle
      cases ex <;> simp only [runPages, if_pos h, hp] <;>
        first
          | exact hle
          | exact ih c2 (pc + 1) (acc ++ recs) hle
    · simp [runPages, if_neg h, hc]

theorem jobLoop_reaches (n : Nat) :
    ∀ (jobs : List JobView) (c : Nat), c < n → n ≤ c + jobs.length →
      (∀ j ∈ jobs, (extractJob j).isSome) →
      ∃ recs : List JobRecord,
        jobLoop n c jobs = Except.ok (recs, n) ∧ recs.length = n - c := by
  intro jobs
  induction jobs with
  | nil =>
    intro c hc hlen _
    simp only [List.length_nil, Nat.add_zero] at hlen
    exact absurd hlen (by omega)
  | cons j rest ih =>
    intro c hc hlen hall
    rcases Option.isSome_iff_exists.mp (hall j (by simp)) with ⟨r, hr⟩
    by_cases h1 : c + 1 = n
    · refine ⟨[r], ?_, ?_⟩
      · simp [jobLoop, hr, h1]
      · simp only [List.length_singleton]
        omega
    · have h2 : c + 1 < n := by omega
      have h3 : n ≤ c + 1 + rest.length := by
        simp only [List.length_cons] at hlen
        omega
      rcases ih (c + 1) h2 h3 (fun j2 hj2 => hall j2 (by simp [hj2])) with
        ⟨recs, hrec, hlenr⟩
      refine ⟨r :: recs, ?_, ?_⟩
      · simp [jobLoop, hr, h1, hrec]
      · simp only [List.length_cons, hlenr]
        omega

theorem splitAllDetails_isSome :
    ∀ l : List String, (∀ c ∈ l, (splitOnce c).isSome) →
      (splitAllDetails l).isSome := by
  intro l
  induction l with
  | nil => intro _; simp [splitAllDetails]
  | cons c rest ih =>
    intro h
    rcases Option.isSome_iff_exists.mp (h c (by simp)) with ⟨p, hp⟩
    rcases Option.isSome_iff_exists.mp (ih (fun x hx => h x (by simp [hx]))) with
      ⟨ps, hps⟩
    simp [splitAllDetails, hp, hps]

theorem dictGet_absent :
    ∀ (pairs : List (String × String)) (key : String),
      (∀ p ∈ pairs, p.1 ≠ key) → dictGet pairs key = FieldVal.missing := by
  intro pairs key
  induction pairs with
  | nil => intro _; simp [dictGet]
  | cons q rest ih =>
    intro h
    rcases q with ⟨l, v⟩
    have hl : l ≠ key := h (l, v) (by simp)
    have hr := ih (fun p hp => h p (by simp [hp]))
    simp [dictGet, hr, hl]

theorem dictGet_skip :
    ∀ (xs ys : List (String × String)) (l v key : String), l ≠ key →
      dictGet (xs ++ (l, v) :: ys) key = dictGet (xs ++ ys) key := by
  intro xs ys l v key hlk
  induction xs with
  | nil =>
    simp only [List.nil_append]
    cases hd : dictGet ys key <;> simp [dictGet, hd, hlk]
  | cons q xs ih =>
    rcases q with ⟨a, b⟩
    simp only [List.cons_append, dictGet, List.append_eq, ih]

/-- C1, counterexample: a pagination click that "succeeds" but leaves the
browser at exactly the prior page URL (which contains "pgc=") does not
abort the run: the controller advances and the crawl later ends
normally via the caught-up break, never via sys.exit.  The code only
tests for the presence of the substring "pgc=" in the post-click URL; it
never compares against the prior page identifier. -/
theorem c1_counterexample :
    pgSame.next = NavOutcome.success pgSame.url ∧
    outcomeOf (getJobs 5 SinkMode.inMemory [pgSame, pgStop]) =
      some (Outcome.finished Reason.caughtUp) ∧
    outcomeOf (getJobs 5 SinkMode.inMemory [pgSame, pgStop]) ≠
      some Outcome.fatalExit := by
  decide

/-- C1, amended: after a pagination click that succeeds, the run aborts
hard (sys.exit(1), line 452) exactly when the post-click URL lacks the
substring "pgc="; when the marker is present the controller increments
the page counter and continues, regardless of whether the URL changed
from the prior page. -/
theorem c1_pgc_marker_guard :
    ∀ (mode : SinkMode) (n : Nat) (p : Page) (rest : List Page) (c pc : Nat)
      (acc : List JobRecord) (url : String) (recs : List JobRecord) (c2 : Nat),
      c < n →
      p.viewedCount ≠ p.jobs.length →
      jobLoop n c p.jobs = Except.ok (recs, c2) →
      c2 ≠ n →
      p.next = NavOutcome.success url →
      runPages mode n (p :: rest) c pc acc =
        (if containsPgc url then runPages mode n rest c2 (pc + 1) (acc ++ recs)
         else ⟨acc ++ recs, c2, pc, Outcome.fatalExit⟩) := by
  intro mode n p rest c pc acc url recs c2 hc hv hloop hc2 hnext
  have hp : processPage mode n c p =
      (if containsPgc url then ⟨recs, c2, PageExit.advance⟩
       else ⟨recs, c2, PageExit.fatal⟩) := by
    simp [processPage, hv, hloop, hc2, hnext]
  by_cases hu : containsPgc url = true
  · rw [hu] at hp ⊢
    simp only [if_true] at hp ⊢
    simp [runPages, hc, hp]
  · rw [Bool.not_eq_true] at hu
    rw [hu] at hp ⊢
    simp only [Bool.false_eq_true, if_false] at hp ⊢
    simp [runPages, hc, hp]

/-- C1, witness for the amended guard at a concrete input: one page, one
unseen job, a successful click landing on a URL without "pgc=". -/
theorem c1_pgc_marker_guard_witness :
    runPages SinkMode.inMemory 5 [⟨"a", [jvNone], 0, NavOutcome.success "b"⟩] 0 0 [] =
      (if containsPgc "b"
       then runPages SinkMode.inMemory 5 [] 1 1 ([] ++ [recNone])
       else ⟨[] ++ [recNone], 1, 0, Outcome.fatalExit⟩) :=
  c1_pgc_marker_guard SinkMode.inMemory 5
    ⟨"a", [jvNone], 0, NavOutcome.success "b"⟩ [] 0 0 [] "b" [recNone] 1
    (by decide) (by decide) (by rfl) (by decide) rfl

/-- C2: at page entry, before any job is opened, the controller compares
the viewedDate count with the job-link count; when they are equal the
page contributes no records and the crawl breaks with the caught-up
reason (first conjunct), so a run whose first page is fully viewed ends
at that page with zero jobs scraped and zero pages advanced (second
conjunct). -/
theorem c2_caught_up :
    (∀ (mode : SinkMode) (n c : Nat) (p : Page),
       p.viewedCount = p.jobs.length →
       processPage mode n c p = ⟨[], c, PageExit.caughtUp⟩) ∧
    (∀ (t : Int) (mode : SinkMode) (p : Page) (rest : List Page),
       1 ≤ t → t ≤ 900 →
       p.viewedCount = p.jobs.length →
       getJobs t mode (p :: rest) =
         Except.ok ⟨⟨[], 0, 0, Outcome.finished Reason.caughtUp⟩, 1, 0⟩) := by
  constructor
  · intro mode n c p hv
    simp [processPage, hv]
  · intro t mode p rest h1 h9 hv
    have hcond : ¬(t ≤ 0 ∨ 900 < t) := by omega
    have hpos : 0 < t.toNat := by omega
    have hp : processPage mode t.toNat 0 p = ⟨[], 0, PageExit.caughtUp⟩ := by
      simp [processPage, hv]
    simp [getJobs, hcond, runPages, hpos, hp]

/-- C2, witness: a first page with one job link and one viewedDate marker
stops the run at page entry with zero records. -/
theorem c2_caught_up_witness :
    getJobs 3 SinkMode.inMemory [⟨"u", [jvNone], 1, NavOutcome.notFound⟩] =
      Except.ok ⟨⟨[], 0, 0, Outcome.finished Reason.caughtUp⟩, 1, 0⟩ :=
  c2_caught_up.2 3 SinkMode.inMemory ⟨"u", [jvNone], 1, NavOutcome.notFound⟩ []
    (by decide) (by decide) (by decide)

/-- C3: the counter-equals-target check runs after every job, so when the
first page offers at least target-many extractable unseen jobs the run
stops mid-page at exactly the target, with the target-reached reason,
without attempting the next-page click (page counter stays 0) and
without ever examining the remaining pages of the world. -/
theorem c3_target_mid_page :
    ∀ (t : Int) (mode : SinkMode) (p : Page) (rest : List Page),
      1 ≤ t → t ≤ 900 →
      p.viewedCount ≠ p.jobs.length →
      t.toNat ≤ p.jobs.length →
      (∀ j ∈ p.jobs, (extractJob j).isSome) →
      ∃ r : RunResult, getJobs t mode (p :: rest) = Except.ok r ∧
        r.crawl.outcome = Outcome.finished Reason.targetReached ∧
        r.crawl.counter = t.toNat ∧
        r.crawl.records.length = t.toNat ∧
        r.crawl.pages = 0 ∧
        getJobs t mode (p :: rest) = getJobs t mode [p] := by
  intro t mode p rest h1 h9 hv hlen hall
  have hcond : ¬(t ≤ 0 ∨ 900 < t) := by omega
  have hpos : 0 < t.toNat := by omega
  rcases jobLoop_reaches t.toNat p.jobs 0 hpos (by omega) hall with
    ⟨recs, hrec, hlenr⟩
  have hp : processPage mode t.toNat 0 p = ⟨recs, t.toNat, PageExit.target⟩ := by
    simp [processPage, hv, hrec]
  refine ⟨⟨⟨recs, t.toNat, 0, Outcome.finished Reason.targetReached⟩, 1, 0⟩,
    ?_, rfl, rfl, ?_, rfl, ?_⟩
  · simp [getJobs, hcond, runPages, hpos, hp]
  · simpa using hlenr
  · simp [getJobs, hcond, runPages, hpos, hp]

/-- C3, witness: target 5 against a first page with 10 unseen jobs stops
mid-page at job 5 with the target-reached reason and no page advance. -/
theorem c3_target_mid_page_witness :
    ∃ r : RunResult, getJobs 5 SinkMode.inMemory (pgTen :: []) = Except.ok r ∧
      r.crawl.outcome = Outcome.finished Reason.targetReached ∧
      r.crawl.counter = (5 : Int).toNat ∧
      r.crawl.records.length = (5 : Int).toNat ∧
      r.crawl.pages = 0 ∧
      getJobs 5 SinkMode.inMemory (pgTen :: []) = getJobs 5 SinkMode.inMemory [pgTen] :=
  c3_target_mid_page 5 SinkMode.inMemory pgTen []
    (by decide) (by decide) (by decide) (by decide) (by decide)

/-- C4: for every target in [1, 900] and every world, a validated run
ends with 0 ≤ jobs_scraped_count ≤ target, on every termination path:
the counter starts at 0, moves up by one per job, and the loop breaks at
the target. -/
theorem c4_counter_invariant :
    ∀ (t : Int) (mode : SinkMode) (world : List Page) (r : RunResult),
      1 ≤ t → t ≤ 900 →
      getJobs t mode world = Except.ok r →
      0 ≤ r.crawl.counter ∧ r.crawl.counter ≤ t.toNat := by
  intro t mode world r h1 h9 hok
  have hcond : ¬(t ≤ 0 ∨ 900 < t) := by omega
  simp only [getJobs, if_neg hcond, Except.ok.injEq] at hok
  refine ⟨Nat.zero_le _, ?_⟩
  rw [← hok]
  exact runPages_counter_le mode t.toNat world 0 0 [] (Nat.zero_le _)

/-- C4, witness: running with target 3 against an exhausted world keeps
the counter at 0, inside the invariant bounds. -/
theorem c4_counter_invariant_witness :
    0 ≤ (RunResult.mk ⟨[], 0, 0, Outcome.modelExhausted⟩ 1 0).crawl.counter ∧
    (RunResult.mk ⟨[], 0, 0, Outcome.modelExhausted⟩ 1 0).crawl.counter ≤ (3 : Int).toNat :=
  c4_counter_invariant 3 SinkMode.inMemory []
    (RunResult.mk ⟨[], 0, 0, Outcome.modelExhausted⟩ 1 0)
    (by decide) (by decide) (by rfl)

/-- C5: description extraction issues at most two lookups and at most one
recovery re-click; a successful first read does one lookup and no
re-click; a failed first read triggers exactly one re-click and a second
lookup; when both reads fail the description is the sentinel; and the
result is fully determined by the first two reads, so a third lookup is
never consulted. -/
theorem c5_description_retry :
    ∀ reads : List (Option String),
      (extractDescription reads).lookups ≤ 2 ∧
      (extractDescription reads).reNavs ≤ 1 ∧
      (descLookup reads 0 ≠ none →
        (extractDescription reads).lookups = 1 ∧ (extractDescription reads).reNavs = 0) ∧
      (descLookup reads 0 = none →
        (extractDescription reads).lookups = 2 ∧ (extractDescription reads).reNavs = 1) ∧
      (descLookup reads 0 = none → descLookup reads 1 = none →
        (extractDescription reads).value = FieldVal.missing) ∧
      (∀ reads2 : List (Option String),
        descLookup reads 0 = descLookup reads2 0 →
        descLookup reads 1 = descLookup reads2 1 →
        extractDescription reads = extractDescription reads2) := by
  intro reads
  refine ⟨?_, ?_, ?_, ?_, ?_, ?_⟩
  · cases h0 : descLookup reads 0 <;> cases h1 : descLookup reads 1 <;>
      simp [extractDescription, h0, h1]
  · cases h0 : descLookup reads 0 <;> cases h1 : descLookup reads 1 <;>
      simp [extractDescription, h0, h1]
  · cases h0 : descLookup reads 0 <;> cases h1 : descLookup reads 1 <;>
      simp [extractDescription, h0, h1]
  · cases h0 : descLookup reads 0 <;> cases h1 : descLookup reads 1 <;>
      simp [extractDescription, h0, h1]
  · cases h0 : descLookup reads 0 <;> cases h1 : descLookup reads 1 <;>
      simp [extractDescription, h0, h1]
  · intro reads2 e0 e1
    unfold extractDescription
    rw [← e0, ← e1]

/-- C5, witness: a failed first read followed by a successful second read
performs two lookups and one re-click. -/
theorem c5_description_retry_witness :
    (extractDescription [none, some "d"]).lookups = 2 ∧
    (extractDescription [none, some "d"]).reNavs = 1 :=
  (c5_description_retry [none, some "d"]).2.2.2.1 (by decide)

/-- C6, counterexample: a job view whose scalar fields are all present
but whose company-details element text lacks the newline separator makes
extraction abort (the ValueError of the unpacking at line 294 is not
caught), so no record at all is produced, against the claim that
extraction always completes. -/
theorem c6_counterexample :
    extractJob jvMalformed = none ∧ jvMalformed.job_title = some "DS" := by
  decide

/-- C6, amended: whenever every company-details element text splits at a
newline, extraction completes with a record, and each scalar field of
that record is computed from that field's own lookup alone — a missing
title, company, location, salary, rating or description sets only its
own field to the sentinel and leaves the rest untouched. -/
theorem c6_field_isolation :
    ∀ j : JobView,
      (∀ c ∈ j.companydetails, (splitOnce c).isSome) →
      ∃ r : JobRecord, extractJob j = some r ∧
        r.job_title = scalarField j.job_title ∧
        r.company_name = scalarField j.company_name ∧
        r.location = scalarField j.location ∧
        r.salary_estimate = scalarField j.salary_estimate ∧
        r.rating = scalarField j.rating ∧
        r.job_description = (extractDescription j.descReads).value := by
  intro j h
  rcases Option.isSome_iff_exists.mp (splitAllDetails_isSome j.companydetails h) with
    ⟨pairs, hpairs⟩
  refine ⟨{ job_title := scalarField j.job_title
          , salary_estimate := scalarField j.salary_estimate
          , job_description := (extractDescription j.descReads).value
          , rating := scalarField j.rating
          , company_name := scalarField j.company_name
          , location := scalarField j.location
          , size := dictGet pairs "Size"
          , founded := dictGet pairs "Founded"
          , type_of_ownership := dictGet pairs "Type"
          , industry := dictGet pairs "Industry"
          , sector := dictGet pairs "Sector"
          , revenue := dictGet pairs "Revenue"
          , rating_culturevalues := dictGet (pairAlternating j.subratings) "Culture & Values"
          , rating_worklifebalance := dictGet (pairAlternating j.subratings) "Work/Life Balance"
          , rating_seniormgmt := dictGet (pairAlternating j.subratings) "Senior Management"
          , rating_compbenefits := dictGet (pairAlternating j.subratings) "Comp & Benefits"
          , rating_careerops := dictGet (pairAlternating j.subratings) "Career Opportunities" },
    ?_, rfl, rfl, rfl, rfl, rfl, rfl⟩
  simp [extractJob, hpairs]

/-- C6, witness: a well-formed view extracts to a full record whose
scalar fields mirror their own lookups. -/
theorem c6_field_isolation_witness :
    ∃ r : JobRecord, extractJob jvDetailed = some r ∧
      r.job_title = scalarField jvDetailed.job_title ∧
      r.company_name = scalarField jvDetailed.company_name ∧
      r.location = scalarField jvDetailed.location ∧
      r.salary_estimate = scalarField jvDetailed.salary_estimate ∧
      r.rating = scalarField jvDetailed.rating ∧
      r.job_description = (extractDescription jvDetailed.descReads).value :=
  c6_field_isolation jvDetailed (by decide)

/-- C7: evaluation at the failing input.  With the CSV sink selected
(path given), a next-page NoSuchElementException or
ElementClickInterceptedException makes the handlers at lines 440/443
evaluate len(jobs) for a local variable that was never assigned, raising
UnboundLocalError: the run crashes instead of terminating with a
reported shortfall.  With the in-memory sink the same navigation
failures terminate normally with the shortfall (counter 1 below target
5). -/
theorem c7_nav_failure_eval :
    outcomeOf (getJobs 5 SinkMode.csvPath [pgSingle]) = some Outcome.nameError ∧
    outcomeOf (getJobs 5 SinkMode.csvPath [pgIntercept]) = some Outcome.nameError ∧
    outcomeOf (getJobs 5 SinkMode.inMemory [pgSingle]) =
      some (Outcome.finished Reason.navNotFound) ∧
    outcomeOf (getJobs 5 SinkMode.inMemory [pgIntercept]) =
      some (Outcome.finished Reason.navIntercepted) ∧
    counterOf (getJobs 5 SinkMode.csvPath [pgSingle]) = some 1 ∧
    counterOf (getJobs 5 SinkMode.inMemory [pgSingle]) = some 1 ∧
    (1 : Nat) < (5 : Int).toNat := by
  decide

/-- C8: the six company-details fields and five subrating fields of an
extracted record are exactly the fixed-label probes of the two label/value
mappings (first conjunct); inserting a pair whose label is outside the
fixed company-details list, or outside the fixed subrating list, changes
none of the corresponding lookups — unknown labels are silently dropped
(second and third conjuncts); and a label with no pair resolves to the
sentinel (fourth conjunct). -/
theorem c8_label_lookup :
    (∀ (j : JobView) (pairs : List (String × String)),
       splitAllDetails j.companydetails = some pairs →
       ∃ r : JobRecord, extractJob j = some r ∧
         r.size = dictGet pairs "Size" ∧
         r.founded = dictGet pairs "Founded" ∧
         r.type_of_ownership = dictGet pairs "Type" ∧
         r.industry = dictGet pairs "Industry" ∧
         r.sector = dictGet pairs "Sector" ∧
         r.revenue = dictGet pairs "Revenue" ∧
         r.rating_culturevalues = dictGet (pairAlternating j.subratings) "Culture & Values" ∧
         r.rating_worklifebalance = dictGet (pairAlternating j.subratings) "Work/Life Balance" ∧
         r.rating_seniormgmt = dictGet (pairAlternating j.subratings) "Senior Management" ∧
         r.rating_compbenefits = dictGet (pairAlternating j.subratings) "Comp & Benefits" ∧
         r.rating_careerops = dictGet (pairAlternating j.subratings) "Career Opportunities") ∧
    (∀ (xs ys : List (String × String)) (l v : String), l ∉ detailLabels →
       ∀ key ∈ detailLabels,
         dictGet (xs ++ (l, v) :: ys) key = dictGet (xs ++ ys) key) ∧
    (∀ (xs ys : List (String × String)) (l v : String), l ∉ subratingLabels →
       ∀ key ∈ subratingLabels,
         dictGet (xs ++ (l, v) :: ys) key = dictGet (xs ++ ys) key) ∧
    (∀ (pairs : List (String × String)) (key : String),
       (∀ p ∈ pairs, p.1 ≠ key) → dictGet pairs key = FieldVal.missing) := by
  refine ⟨?_, ?_, ?_, dictGet_absent⟩
  · intro j pairs hpairs
    refine ⟨{ job_title := scalarField j.job_title
            , salary_estimate := scalarField j.salary_estimate
            , job_description := (extractDescription j.descReads).value
            , rating := scalarField j.rating
            , company_name := scalarField j.company_name
            , location := scalarField j.location
            , size := dictGet pairs "Size"
            , founded := dictGet pairs "Founded"
            , type_of_ownership := dictGet pairs "Type"
            , industry := dictGet pairs "Industry"
            , sector := dictGet pairs "Sector"
            , revenue := dictGet pairs "Revenue"
            , rating_culturevalues := dictGet (pairAlternating j.subratings) "Culture & Values"
            , rating_worklifebalance := dictGet (pairAlternating j.subratings) "Work/Life Balance"
            , rating_seniormgmt := dictGet (pairAlternating j.subratings) "Senior Management"
            , rating_compbenefits := dictGet (pairAlternating j.subratings) "Comp & Benefits"
            , rating_careerops := dictGet (pairAlternating j.subratings) "Career Opportunities" },
      ?_, rfl, rfl, rfl, rfl, rfl, rfl, rfl, rfl, rfl, rfl, rfl⟩
    simp [extractJob, hpairs]
  · intro xs ys l v hl key hkey
    exact dictGet_skip xs ys l v key (fun he => hl (by rw [he]; exact hkey))
  · intro xs ys l v hl key hkey
    exact dictGet_skip xs ys l v key (fun he => hl (by rw [he]; exact hkey))

/-- C8, witness: an unknown label is dropped from the company-details
lookup and an absent label resolves to the sentinel. -/
theorem c8_label_lookup_witness :
    dictGet ([] ++ ("X", "1") :: []) "Size" = dictGet ([] ++ []) "Size" ∧
    dictGet [("Q", "2")] "Size" = FieldVal.missing :=
  ⟨c8_label_lookup.2.1 [] [] "X" "1" (by decide) "Size" (by decide),
   c8_label_lookup.2.2.2 [("Q", "2")] "Size" (by decide)⟩

/-- C9, counterexample: a complete run (target reached) ends with zero
driver releases, not one: the source never calls driver.quit or
driver.close on any path. -/
theorem c9_counterexample :
    releasesOf (getJobs 1 SinkMode.inMemory [pgSingle]) = some 0 ∧
    releasesOf (getJobs 1 SinkMode.inMemory [pgSingle]) ≠ some 1 := by
  decide

/-- C9, amended: every validated run acquires the browser session exactly
once (line 102) and releases it zero times on every exit path — the
scraper contains no release call at all. -/
theorem c9_session_lifecycle :
    ∀ (t : Int) (mode : SinkMode) (world : List Page) (r : RunResult),
      getJobs t mode world = Except.ok r →
      r.sessionAcquires = 1 ∧ r.sessionReleases = 0 := by
  intro t mode world r h
  by_cases hcond : t ≤ 0 ∨ 900 < t
  · simp [getJobs, hcond] at h
  · simp only [getJobs, if_neg hcond, Except.ok.injEq] at h
    subst h
    exact ⟨rfl, rfl⟩

/-- C9, witness: a concrete run acquires once and never releases. -/
theorem c9_session_lifecycle_witness :
    (RunResult.mk ⟨[], 0, 0, Outcome.modelExhausted⟩ 1 0).sessionAcquires = 1 ∧
    (RunResult.mk ⟨[], 0, 0, Outcome.modelExhausted⟩ 1 0).sessionReleases = 0 :=
  c9_session_lifecycle 2 SinkMode.csvPath []
    (RunResult.mk ⟨[], 0, 0, Outcome.modelExhausted⟩ 1 0) (by rfl)

/-- C10: a page with no job links and no viewedDate markers makes the
page-entry comparison hold as 0 = 0, so the page is processed as caught
up: no records are emitted from it and the run terminates there with the
caught-up reason, counter and accumulator unchanged — an empty results
page is indistinguishable from having caught up. -/
theorem c10_empty_page :
    ∀ (mode : SinkMode) (n c pc : Nat) (acc : List JobRecord)
      (p : Page) (rest : List Page),
      p.jobs = [] → p.viewedCount = 0 → c < n →
      processPage mode n c p = ⟨[], c, PageExit.caughtUp⟩ ∧
      runPages mode n (p :: rest) c pc acc =
        ⟨acc, c, pc, Outcome.finished Reason.caughtUp⟩ := by
  intro mode n c pc acc p rest hj hv hc
  have hveq : p.viewedCount = p.jobs.length := by simp [hj, hv]
  have hp : processPage mode n c p = ⟨[], c, PageExit.caughtUp⟩ := by
    simp [processPage, hveq]
  exact ⟨hp, by simp [runPages, hc, hp]⟩

/-- C10, witness: an empty page entered mid-run ends the crawl as caught
up with nothing scraped from it. -/
theorem c10_empty_page_witness :
    processPage SinkMode.inMemory 4 0 pgStop = ⟨[], 0, PageExit.caughtUp⟩ ∧
    runPages SinkMode.inMemory 4 [pgStop] 0 0 [] =
      ⟨[], 0, 0, Outcome.finished Reason.caughtUp⟩ :=
  c10_empty_page SinkMode.inMemory 4 0 0 [] pgStop [] rfl rfl (by decide)

end DSJobs
